import Mathlib

/-!
Shallow embedding of the GSTR-2A → Tally XML converter (src/app.py).

Pure helper functions are translated directly; the Streamlit UI and the
openpyxl/pandas spreadsheet plumbing (out of scope per the spec) are
abstracted into explicit row lists, and the ambient clock
(`datetime.now().strftime("%Y%m%d")`) is passed explicitly as a `today`
string.  Monetary values are modelled in hundredths (Python `Decimal`
quantized to two fractional digits) in sign-magnitude form, since Python's
`Decimal` carries a sign even on zero.
-/

/-- A Python `Decimal` quantized to two fractional digits, in sign-magnitude
form: `mag` is the magnitude in hundredths and `neg` the sign flag (Python's
`Decimal` distinguishes a negative zero, and `quantize` preserves the sign of
the operand). -/
structure Dec2 where
  neg : Bool
  mag : Nat
deriving DecidableEq, Repr

/-- A raw cell value as consumed by `round_amount`: blank-like (`None`, `""`,
`" "`, `"-"`, NaN), a numeric value denoting `(-1)^sgn * mag / 10^e` (what
`Decimal(str(x))` parses, keeping the written sign), or a value on which the
parse or quantize raises (caught, yielding 0.00). -/
inductive AmtCell where
  | blank
  | num (sgn : Bool) (mag : Nat) (e : Nat)
  | bad
deriving DecidableEq, Repr

/-- Round `mag / 10^e` to hundredths with halves rounded up; on magnitudes
this is exactly Python's `ROUND_HALF_UP` (ties away from zero). -/
def roundCents (mag e : Nat) : Nat :=
  if e ≤ 2 then mag * 10 ^ (2 - e)
  else (2 * mag + 10 ^ (e - 2)) / (2 * 10 ^ (e - 2))

/-- src/app.py `round_amount`: blank/unparsable input → 0.00; otherwise
quantize to two fractional digits, `ROUND_HALF_UP`, keeping the sign. -/
def round_amount : AmtCell → Dec2
  | .blank => ⟨false, 0⟩
  | .bad => ⟨false, 0⟩
  | .num sgn mag e => ⟨sgn, roundCents mag e⟩

/-- Signed value of a quantized decimal, in hundredths. -/
def Dec2.toInt (d : Dec2) : Int :=
  if d.neg then -(d.mag : Int) else (d.mag : Int)

/-- Re-embed a quantized `Decimal` as a raw cell: this is what `round_amount`
receives when applied to its own output (`Decimal(str(x))` re-parses the
two-fraction-digit literal, sign included). -/
def Dec2.toCell (d : Dec2) : AmtCell := .num d.neg d.mag 2

/-- Two-digit zero padding. -/
def pad2 (n : Nat) : String := if n < 10 then "0" ++ toString n else toString n

/-- Python `str` of a two-fraction-digit `Decimal` (always shows two decimals,
and a leading `-` when the sign flag is set, also on `-0.00`). -/
def dec2Str (d : Dec2) : String :=
  (if d.neg then "-" else "") ++ toString (d.mag / 100) ++ "." ++ pad2 (d.mag % 100)

/-- Render a signed amount in hundredths, as the voucher builders' f-strings
produce it (`f"-{x}"` on a positive `Decimal`, or the `Decimal` itself). -/
def centsStr (n : Int) : String := dec2Str ⟨decide (n < 0), n.natAbs⟩

/-- Whitespace test used for Python `str.strip` / `\s`. -/
def wsChar (c : Char) : Bool := c.isWhitespace

def pyStripList (l : List Char) : List Char :=
  ((l.dropWhile wsChar).reverse.dropWhile wsChar).reverse

/-- Python `str.strip()`. -/
def pyStrip (s : String) : String := ⟨pyStripList s.toList⟩

def lowerList (l : List Char) : List Char := l.map Char.toLower

/-- Python `str.lower()` (ASCII range, which is all the code compares). -/
def lowerStr (s : String) : String := ⟨lowerList s.toList⟩

/-- Whether `pat` begins `l`. -/
def charListPre : List Char → List Char → Bool
  | [], _ => true
  | _ :: _, [] => false
  | a :: as, b :: bs => a = b && charListPre as bs

/-- Whether `pat` occurs contiguously in `l` (Python `pat in l`). -/
def containsList (pat : List Char) : List Char → Bool
  | [] => charListPre pat []
  | c :: rest => charListPre pat (c :: rest) || containsList pat rest

/-- Whether `pat` ends `l`. -/
def endsWithList (pat l : List Char) : Bool := charListPre pat.reverse l.reverse

def digitChar (c : Char) : Bool := '0' ≤ c && c ≤ '9'

def isLeapYear (y : Nat) : Bool := y % 4 = 0 && (y % 100 ≠ 0 || y % 400 = 0)

def daysInMonth (y m : Nat) : Nat :=
  if m = 2 then (if isLeapYear y then 29 else 28)
  else if m = 4 ∨ m = 6 ∨ m = 9 ∨ m = 11 then 30
  else 31

def pad4 (n : Nat) : String :=
  if n < 10 then "000" ++ toString n
  else if n < 100 then "00" ++ toString n
  else if n < 1000 then "0" ++ toString n
  else toString n

/-- Python `strftime("%Y%m%d")`. -/
def fmtYmd (y m d : Nat) : String := pad4 y ++ pad2 m ++ pad2 d

/-- Split on every character satisfying `p` (like Python `str.split(sep)` for
a one-character separator: empty groups are kept). -/
def splitOnPred (p : Char → Bool) : List Char → List (List Char)
  | [] => [[]]
  | c :: rest =>
    if p c then [] :: splitOnPred p rest
    else
      match splitOnPred p rest with
      | g :: gs => (c :: g) :: gs
      | [] => [[c]]

def splitOnChar (sep : Char) (l : List Char) : List (List Char) :=
  splitOnPred (fun c => c = sep) l

/-- Whitespace-run split (CPython `strptime` turns a literal space in the
format into `\s+`): empty groups are discarded. -/
def wsSplit (l : List Char) : List (List Char) :=
  (splitOnPred wsChar l).filter (fun g => !g.isEmpty)

def digitsToNat (l : List Char) : Nat :=
  l.foldl (fun n c => n * 10 + (c.toNat - 48)) 0

/-- A nonempty all-digit field, as the `%d`/`%m`/`%y`/`%Y` regexes require. -/
def numField? (l : List Char) : Option Nat :=
  if !l.isEmpty && l.all digitChar then some (digitsToNat l) else none

/-- Python `datetime.strptime(s, "%d<sep>%m<sep>%y")` followed by the
`dt.year < 2000 → year + 2000` adjustment and `strftime("%Y%m%d")`, as in
src/app.py lines 31-38.  CPython's `%d` is 1-2 digits valued 1..31, `%m` 1-2
digits valued 1..12, `%y` exactly two digits mapped 00-68 → 2000..2068 and
69-99 → 1969..1999; the parsed calendar date must exist. -/
def try_dmy2 (sep : Char) (l : List Char) : Option String :=
  match splitOnChar sep l with
  | [ds, ms, ys] =>
    match numField? ds, numField? ms, numField? ys with
    | some d, some m, some y =>
      if ds.length ≤ 2 ∧ 1 ≤ d ∧ d ≤ 31 ∧ ms.length ≤ 2 ∧ 1 ≤ m ∧ m ≤ 12 ∧ ys.length = 2 then
        let yr := if y ≤ 68 then 2000 + y else 1900 + y
        if d ≤ daysInMonth yr m then
          some (fmtYmd (if yr < 2000 then yr + 2000 else yr) m d)
        else none
      else none
    | _, _, _ => none
  | _ => none

/-- Python `strptime(s, "%d<sep>%m<sep>%Y")` (four-digit year) then
`strftime("%Y%m%d")`.  The year must be at least `datetime.MINYEAR = 1`:
CPython raises on year 0000 (the only 4-digit value below it). -/
def try_dmy4 (sep : Char) (l : List Char) : Option String :=
  match splitOnChar sep l with
  | [ds, ms, ys] =>
    match numField? ds, numField? ms, numField? ys with
    | some d, some m, some y =>
      if ds.length ≤ 2 ∧ 1 ≤ d ∧ d ≤ 31 ∧ ms.length ≤ 2 ∧ 1 ≤ m ∧ m ≤ 12 ∧ ys.length = 4
          ∧ 1 ≤ y ∧ d ≤ daysInMonth y m then
        some (fmtYmd y m d)
      else none
    | _, _, _ => none
  | _ => none

/-- Python `strptime(s, "%Y-%m-%d")` then `strftime("%Y%m%d")`; year at
least `datetime.MINYEAR = 1` (CPython raises on 0000). -/
def try_ymd4 (l : List Char) : Option String :=
  match splitOnChar '-' l with
  | [ys, ms, ds] =>
    match numField? ys, numField? ms, numField? ds with
    | some y, some m, some d =>
      if ys.length = 4 ∧ 1 ≤ y ∧ ms.length ≤ 2 ∧ 1 ≤ m ∧ m ≤ 12 ∧ ds.length ≤ 2 ∧ 1 ≤ d
          ∧ d ≤ 31 ∧ d ≤ daysInMonth y m then
        some (fmtYmd y m d)
      else none
    | _, _, _ => none
  | _ => none

/-- The `%b` field: English abbreviated month name, case-insensitive. -/
def monthAbbr? (l : List Char) : Option Nat :=
  let t : String := ⟨lowerList l⟩
  if t = "jan" then some 1 else if t = "feb" then some 2
  else if t = "mar" then some 3 else if t = "apr" then some 4
  else if t = "may" then some 5 else if t = "jun" then some 6
  else if t = "jul" then some 7 else if t = "aug" then some 8
  else if t = "sep" then some 9 else if t = "oct" then some 10
  else if t = "nov" then some 11 else if t = "dec" then some 12
  else none

/-- Python `strptime` with `%d`, `%b`, `%Y` fields on pre-split parts (used
for `"%d-%b-%Y"` and `"%d %b %Y"`); year at least `datetime.MINYEAR = 1`
(CPython raises on 0000). -/
def try_dMonY (parts : List (List Char)) : Option String :=
  match parts with
  | [ds, mons, ys] =>
    match numField? ds, monthAbbr? mons, numField? ys with
    | some d, some m, some y =>
      if ds.length ≤ 2 ∧ 1 ≤ d ∧ d ≤ 31 ∧ ys.length = 4 ∧ 1 ≤ y ∧ d ≤ daysInMonth y m then
        some (fmtYmd y m d)
      else none
    | _, _, _ => none
  | _ => none

/-- The parse chain of `format_date_for_tally` on the stripped string: the
three two-digit-year formats, then a bare 8-digit pass-through, then
`%d-%m-%Y`, `%d/%m/%Y`, `%Y-%m-%d`, `%d-%b-%Y`, `%d %b %Y`.  `none` means
every format failed and the caller falls back to the current date. -/
def parseDateStr (l : List Char) : Option String :=
  (try_dmy2 '-' l).orElse fun _ =>
  (try_dmy2 '/' l).orElse fun _ =>
  (try_dmy2 '.' l).orElse fun _ =>
  (if l.length = 8 ∧ l.all digitChar then some (⟨l⟩ : String) else none).orElse fun _ =>
  (try_dmy4 '-' l).orElse fun _ =>
  (try_dmy4 '/' l).orElse fun _ =>
  (try_ymd4 l).orElse fun _ =>
  (try_dMonY (splitOnChar '-' l)).orElse fun _ =>
  try_dMonY (wsSplit l)

/-- A date cell: blank-like (`None`/NaT, and also the strings `""`/`"-"`
handled by the same guard), an object carrying date semantics (`strftime`
attribute, e.g. an openpyxl `datetime`), or a raw string. -/
inductive DateCell where
  | blank
  | dateObj (y m d : Nat)
  | str (s : String)
deriving DecidableEq, Repr

/-- src/app.py `format_date_for_tally`, with the ambient clock passed
explicitly: `today` is the `datetime.now().strftime("%Y%m%d")` string the
fallback branches return. -/
def format_date_for_tally (today : String) : DateCell → String
  | .blank => today
  | .dateObj y m d => fmtYmd y m d
  | .str s =>
    if s = "" ∨ s = "-" then today
    else
      match parseDateStr (pyStripList s.toList) with
      | some r => r
      | none => today

/-- True when `format_date_for_tally` uses the source value rather than the
current date (i.e. the input is not blank-like and some format parses). -/
def dateNoFallback : DateCell → Bool
  | .blank => false
  | .dateObj _ _ _ => true
  | .str s =>
    if s = "" ∨ s = "-" then false
    else (parseDateStr (pyStripList s.toList)).isSome

def upAlnum (c : Char) : Bool := ('A' ≤ c && c ≤ 'Z') || digitChar c

/-- Python `re.sub(r"\s*-\s*[A-Z0-9]{15}$", "", s)`: strip one trailing
"- <15-char uppercase alnum id>" suffix. -/
def stripGstinSuffix (s : String) : String :=
  let r := s.toList.reverse
  if (r.take 15).length = 15 ∧ (r.take 15).all upAlnum then
    match (r.drop 15).dropWhile wsChar with
    | '-' :: r3 => ⟨(r3.dropWhile wsChar).reverse⟩
    | _ => s
  else s

/-- State for the single-pass `\s{2,} → " "` rewrite: outside whitespace, one
pending whitespace character, or inside a run of length at least two. -/
inductive WsState where
  | clean
  | one (c : Char)
  | run
deriving DecidableEq

/-- Python `re.sub(r"\s{2,}", " ", s)`: a run of two or more whitespace characters
becomes a single space; a lone whitespace character is kept unchanged. -/
def collapseWsAux : WsState → List Char → List Char
  | .clean, [] => []
  | .one w, [] => [w]
  | .run, [] => [' ']
  | .clean, c :: rest =>
    if wsChar c then collapseWsAux (.one c) rest else c :: collapseWsAux .clean rest
  | .one w, c :: rest =>
    if wsChar c then collapseWsAux .run rest else w :: c :: collapseWsAux .clean rest
  | .run, c :: rest =>
    if wsChar c then collapseWsAux .run rest else ' ' :: c :: collapseWsAux .clean rest

def collapseWs (s : String) : String := ⟨collapseWsAux .clean s.toList⟩

/-- src/app.py `clean_party_name`: blank-like → the placeholder; otherwise
strip, drop a trailing "-GSTIN" suffix, collapse repeated whitespace, and
fall back to the placeholder when nothing remains. -/
def clean_party_name : Option String → String
  | none => "Unknown Supplier"
  | some name =>
    if name = "" ∨ name = " " then "Unknown Supplier"
    else
      let s := collapseWs (stripGstinSuffix (pyStrip name))
      if s = "" then "Unknown Supplier" else s

/-- The summary keywords of `norm_number` / `looks_like_total_or_bold`, in
the alternation order of the regex. -/
def kwList : List (List Char) := [['t','o','t','a','l'], ['t','o','t'], ['t','o','i']]

def sepChar (c : Char) : Bool := c = '-' || wsChar c

/-- Whether `(-|\s)*(total|tot|toi)\s*` matches the whole of `l`
(case-insensitive).  The keywords start with a letter, so the greedy
separator run is forced maximal, and the three alternatives are mutually
exclusive on the same start. -/
def summaryTailMatch (l : List Char) : Bool :=
  let l' := (lowerList l).dropWhile sepChar
  kwList.any fun kw => charListPre kw l' && (l'.drop kw.length).all wsChar

/-- Python `re.sub(r"(-|\s)*(total|tot|toi)\s*$", "", s)`: remove the suffix starting
at the leftmost position from which the pattern matches through to the end. -/
def stripSummarySuffix : List Char → List Char
  | [] => []
  | c :: rest => if summaryTailMatch (c :: rest) then [] else c :: stripSummarySuffix rest

def allowedChar (c : Char) : Bool :=
  ('A' ≤ c && c ≤ 'Z') || ('a' ≤ c && c ≤ 'z') || digitChar c || c = '/' || c = '-'

/-- src/app.py `norm_number`: blank-like → empty; otherwise strip, remove one
trailing summary token, and keep only letters, digits, `/`, `-`. -/
def norm_number (no : String) : String :=
  if no = "" ∨ no = " " then ""
  else ⟨(stripSummarySuffix (pyStripList no.toList)).filter allowedChar⟩

/-- Whether `re.search(r"(total|tot|toi)\s*$", s)` succeeds: after removing
trailing whitespace the string ends in a summary keyword, case-insensitive. -/
def summarySearchEnd (l : List Char) : Bool :=
  let t := lowerList ((l.reverse.dropWhile wsChar).reverse)
  kwList.any fun kw => endsWithList kw t

/-- src/app.py `looks_like_total_or_bold`: the type cell is blank or
dash-like, or the number cell ends in a summary token. -/
def looks_like_total_or_bold (row_type_value : String) (inv_no : String) : Bool :=
  if row_type_value = "" ∨ row_type_value = "-" ∨ row_type_value = "—" then true
  else summarySearchEnd inv_no.toList

/-- One row of the unified B2B/CDNR schema as the extractor loops and voucher
builders see it.  String fields hold the Python `str()` image of the cell;
`partyName` is `none` for a Python `None` cell (the builders' `rec.get` can
see `None` there, while the pandas validity filter sees `str(None)`);
`invoiceType` holds `str(x or "")`, so blank-like type cells are `""`.  The
openpyxl/pandas sheet plumbing (out of scope per the spec) is abstracted into
lists of this record. -/
structure Rec where
  gstin : String
  partyName : Option String
  invoiceNumber : String
  invoiceType : String
  invoiceDate : DateCell
  taxableValue : AmtCell
  igst : AmtCell
  cgst : AmtCell
  sgst : AmtCell
  cess : AmtCell
deriving DecidableEq, Repr

/-- pandas `astype(str)` on an object cell: `None` stringifies to `"None"`. -/
def pyAstype : Option String → String
  | none => "None"
  | some s => s

/-- The dedup key tuple built in the extractor loops (GSTIN, normalized
number, canonical date, and the five stringified rounded amounts). -/
def fingerprint (today : String) (r : Rec) : List String :=
  [pyStrip r.gstin,
   norm_number (pyStrip r.invoiceNumber),
   format_date_for_tally today r.invoiceDate,
   dec2Str (round_amount r.taxableValue),
   dec2Str (round_amount r.igst),
   dec2Str (round_amount r.cgst),
   dec2Str (round_amount r.sgst),
   dec2Str (round_amount r.cess)]

/-- The per-row summary test the extractor loops apply
(`looks_like_total_or_bold(inv_typ, inv_num)` on the stripped cells). -/
def summaryRow (r : Rec) : Bool :=
  looks_like_total_or_bold (pyStrip r.invoiceType) (pyStrip r.invoiceNumber)

/-- The shared keep-first-by-fingerprint loop of `extract_b2b`/`extract_cdnr`
(src/app.py lines 108-128 and 178-198): skip summary rows, skip rows whose
fingerprint was already seen, otherwise record the fingerprint and keep the
row, preserving input order. -/
def dedupLoop (today : String) : List Rec → List (List String) → List Rec
  | [], _ => []
  | r :: rs, seen =>
    if summaryRow r then dedupLoop today rs seen
    else if fingerprint today r ∈ seen then dedupLoop today rs seen
    else r :: dedupLoop today rs (fingerprint today r :: seen)

/-- The validity filter of `extract_b2b`: non-blank GSTIN and invoice number
(pandas `astype(str).str.strip().ne("")`). -/
def validB2B (rows : List Rec) : List Rec :=
  (rows.filter fun r => pyStrip r.gstin != "").filter fun r => pyStrip r.invoiceNumber != ""

/-- The validity filter of `extract_cdnr`: non-blank party name and note
number. -/
def validCDNR (rows : List Rec) : List Rec :=
  (rows.filter fun r => pyStrip (pyAstype r.partyName) != "").filter
    fun r => pyStrip r.invoiceNumber != ""

/-- src/app.py `extract_b2b` from the point where the B2B sheet has been read
into rows: validity filter, then the summary-skip/dedup loop with a fresh
`seen` set. -/
def extract_b2b (today : String) (rows : List Rec) : List Rec :=
  dedupLoop today (validB2B rows) []

/-- src/app.py `extract_cdnr`, similarly (after the layout mapping). -/
def extract_cdnr (today : String) (rows : List Rec) : List Rec :=
  dedupLoop today (validCDNR rows) []

/-- The accumulation loop of `main`: for each uploaded file, extend the B2B
and CDNR lists with that file's extraction (each call has its own `seen`). -/
def accumulateAll (today : String) (files : List (List Rec × List Rec)) :
    List Rec × List Rec :=
  ((files.map fun f => extract_b2b today f.1).flatten,
   (files.map fun f => extract_cdnr today f.2).flatten)

/-- One `ALLLEDGERENTRIES.LIST` node: ledger name, `ISDEEMEDPOSITIVE` flag,
the signed AMOUNT value in hundredths, and an optional
`BILLALLOCATIONS.LIST` (name, bill type, amount). -/
structure LedgerEntry where
  ledgerName : String
  deemedPositive : Bool
  amount : Int
  bill : Option (String × String × Int)
deriving DecidableEq, Repr

/-- One `VOUCHER` node as the builders assemble it. -/
structure Voucher where
  vchType : String
  entryMode : Option String
  date : String
  number : String
  reference : String
  narration : String
  partyLedgerName : String
  entries : List LedgerEntry
deriving DecidableEq, Repr

/-- The four tax heads in builder order. -/
def taxHeads (igst cgst sgst cess : Int) : List (String × Int) :=
  [("INPUT IGST", igst), ("INPUT CGST", cgst), ("INPUT SGST", sgst), ("INPUT CESS", cess)]

/-- src/app.py `add_purchase_voucher`: `none` when the record is rejected by
the party/number/total gate, otherwise the voucher appended to the request.
Debit lines (negative) for taxable value and each positive tax head, credit
line (positive) for the party at the total. -/
def add_purchase_voucher (today : String) (rec : Rec) (use_inv_as_vch : Bool) :
    Option Voucher :=
  let party := clean_party_name rec.partyName
  if party = "Unknown Supplier" then none
  else
    let inv_no := pyStrip rec.invoiceNumber
    if inv_no = "" then none
    else
      let taxable := (round_amount rec.taxableValue).toInt
      let igst := (round_amount rec.igst).toInt
      let cgst := (round_amount rec.cgst).toInt
      let sgst := (round_amount rec.sgst).toInt
      let cess := (round_amount rec.cess).toInt
      let total := taxable + igst + cgst + sgst + cess
      if total ≤ 0 then none
      else some
        { vchType := "Purchase"
          entryMode := none
          date := format_date_for_tally today rec.invoiceDate
          number := if use_inv_as_vch ∧ inv_no ≠ "" then inv_no else ""
          reference := inv_no
          narration := "Purchase from " ++ party ++ " - Invoice: " ++ inv_no
          partyLedgerName := party
          entries :=
            (if 0 < taxable then
              [⟨"Purchase Taxable", true, -taxable, some (inv_no, "New Ref", -taxable)⟩]
             else [])
            ++ ((taxHeads igst cgst sgst cess).filter fun p => decide (0 < p.2)).map
                (fun p => ⟨p.1, true, -p.2, none⟩)
            ++ [⟨party, false, total, some (inv_no, "New Ref", total)⟩] }

/-- src/app.py `add_cdnr_voucher`: same gate; direction from the substring
test `"debit" in note_type`; Debit Note posts the party debit (negative)
against positive purchase/tax lines, Credit Note the mirror image. -/
def add_cdnr_voucher (today : String) (rec : Rec) (use_inv_as_vch : Bool) :
    Option Voucher :=
  let party := clean_party_name rec.partyName
  if party = "Unknown Supplier" then none
  else
    let note_no := pyStrip rec.invoiceNumber
    if note_no = "" then none
    else
      let taxable := (round_amount rec.taxableValue).toInt
      let igst := (round_amount rec.igst).toInt
      let cgst := (round_amount rec.cgst).toInt
      let sgst := (round_amount rec.sgst).toInt
      let cess := (round_amount rec.cess).toInt
      let total := taxable + igst + cgst + sgst + cess
      if total ≤ 0 then none
      else
        let note_type := lowerStr (pyStrip rec.invoiceType)
        let isDebitNoteText := containsList ['d','e','b','i','t'] note_type.toList
        let vch_type := if isDebitNoteText then "Credit Note" else "Debit Note"
        let narr := if isDebitNoteText then "Credit Note (Supplier Debit)"
                    else "Debit Note (Purchase Return)"
        some
          { vchType := vch_type
            entryMode := some "Accounting"
            date := format_date_for_tally today rec.invoiceDate
            number := if use_inv_as_vch ∧ note_no ≠ "" then note_no else ""
            reference := note_no
            narration := narr ++ " - Supplier: " ++ party ++ " - Ref: " ++ note_no
            partyLedgerName := party
            entries :=
              if vch_type = "Debit Note" then
                [⟨party, true, -total, some (note_no, "Agst Ref", -total)⟩]
                ++ (if 0 < taxable then [⟨"Purchase Taxable", false, taxable, none⟩] else [])
                ++ ((taxHeads igst cgst sgst cess).filter fun p => decide (0 < p.2)).map
                    (fun p => ⟨p.1, false, p.2, none⟩)
              else
                [⟨party, false, total, some (note_no, "Agst Ref", total)⟩]
                ++ (if 0 < taxable then [⟨"Purchase Taxable", true, -taxable, none⟩] else [])
                ++ ((taxHeads igst cgst sgst cess).filter fun p => decide (0 < p.2)).map
                    (fun p => ⟨p.1, true, -p.2, none⟩) }

/-- The total the builders gate on: sum of the five rounded monetary fields,
in hundredths. -/
def recTotal (r : Rec) : Int :=
  (round_amount r.taxableValue).toInt + (round_amount r.igst).toInt
    + (round_amount r.cgst).toInt + (round_amount r.sgst).toInt
    + (round_amount r.cess).toInt

/-- Signed sum of a voucher's ledger-entry amounts. -/
def voucherSum (v : Voucher) : Int := (v.entries.map LedgerEntry.amount).sum

/-- An XML element as `xml.etree.ElementTree` builds it here: tag, attributes
in creation order, optional text (empty string for "no text"), children.
(No element in this program carries both text and children.) -/
inductive Xml where
  | el (tag : String) (attrs : List (String × String)) (txt : String) (children : List Xml)

/-- Shorthand for `ET.SubElement(parent, tag).text = txt`. -/
def leafX (tag txt : String) : Xml := .el tag [] txt []

/-- Character escaping in text nodes. -/
def escText (c : Char) : List Char :=
  if c = '&' then ['&','a','m','p',';']
  else if c = '<' then ['&','l','t',';']
  else if c = '>' then ['&','g','t',';']
  else [c]

/-- Character escaping in attribute values. -/
def escAttr (c : Char) : List Char :=
  if c = '"' then ['&','q','u','o','t',';'] else escText c

def escapeWith (f : Char → List Char) (s : String) : String :=
  ⟨s.toList.foldr (fun c acc => f c ++ acc) []⟩

def attrsString (attrs : List (String × String)) : String :=
  attrs.foldr (fun a acc => " " ++ a.1 ++ "=\"" ++ escapeWith escAttr a.2 ++ "\"" ++ acc) ""

/-- Python `minidom.toprettyxml(indent="  ")`-style rendering: every element on its
own line at two-space indents; an element whose only content is text is
written inline; an empty element self-closes.  `fuel` bounds the recursion
depth (the trees this program builds are at most 9 deep). -/
def renderXml : Nat → String → Xml → String
  | 0, _, _ => ""
  | fuel + 1, ind, .el tag attrs txt children =>
    let openTag := ind ++ "<" ++ tag ++ attrsString attrs
    match children with
    | [] =>
      if txt = "" then openTag ++ "/>\n"
      else openTag ++ ">" ++ escapeWith escText txt ++ "</" ++ tag ++ ">\n"
    | _ =>
      openTag ++ ">\n"
        ++ (children.map (renderXml fuel (ind ++ "  "))).foldr (fun a acc => a ++ acc) ""
        ++ ind ++ "</" ++ tag ++ ">\n"

/-- src/app.py `prettify`: serialize with the XML declaration line minidom
emits. -/
def prettify (x : Xml) : String := "<?xml version=\"1.0\" ?>\n" ++ renderXml 64 "" x

/-- src/app.py `ledger_basic`. -/
def ledger_basic (name parent billwise : String) : Xml :=
  .el "LEDGER" [("NAME", name), ("ACTION", "Create")] ""
    [leafX "NAME" name, leafX "PARENT" parent, leafX "ISBILLWISEON" billwise,
     leafX "OPENINGBALANCE" "0.00", leafX "AFFECTSSTOCK" "No", leafX "ISREVENUE" "Yes",
     leafX "ISDEEMEDPOSITIVE" "No"]

/-- src/app.py `ledger_tax`. -/
def ledger_tax (name dutyhead : String) : Xml :=
  .el "LEDGER" [("NAME", name), ("ACTION", "Create")] ""
    [leafX "NAME" name, leafX "PARENT" "Duties & Taxes", leafX "TAXTYPE" "GST",
     leafX "GSTDUTYHEAD" dutyhead, leafX "ISINPUTCREDIT" "Yes", leafX "ISBILLWISEON" "No",
     leafX "OPENINGBALANCE" "0.00"]

def billXml (b : String × String × Int) : Xml :=
  .el "BILLALLOCATIONS.LIST" [] ""
    [leafX "NAME" b.1, leafX "BILLTYPE" b.2.1, leafX "AMOUNT" (centsStr b.2.2)]

def entryXml (e : LedgerEntry) : Xml :=
  .el "ALLLEDGERENTRIES.LIST" [] ""
    ([leafX "LEDGERNAME" e.ledgerName,
      leafX "ISDEEMEDPOSITIVE" (if e.deemedPositive then "Yes" else "No"),
      leafX "AMOUNT" (centsStr e.amount)]
     ++ match e.bill with
        | some b => [billXml b]
        | none => [])

def voucherXml (v : Voucher) : Xml :=
  .el "TALLYMESSAGE" [("xmlns:UDF", "TallyUDF")] ""
    [.el "VOUCHER" [("VCHTYPE", v.vchType), ("ACTION", "Create")] ""
      ([leafX "VOUCHERTYPENAME" v.vchType]
       ++ (match v.entryMode with
           | some m => [leafX "VCHENTRYMODE" m]
           | none => [])
       ++ [leafX "DATE" v.date, leafX "EFFECTIVEDATE" v.date,
           leafX "VOUCHERNUMBER" v.number, leafX "REFERENCE" v.reference,
           leafX "NARRATION" v.narration, leafX "PARTYLEDGERNAME" v.partyLedgerName]
       ++ v.entries.map entryXml)]

/-- Codepoint-lexicographic string order, as Python `sorted` uses. -/
def charListLe : List Char → List Char → Bool
  | [], _ => true
  | _ :: _, [] => false
  | a :: as, b :: bs =>
    if a.toNat < b.toNat then true
    else if b.toNat < a.toNat then false
    else charListLe as bs

def strLe (a b : String) : Bool := charListLe a.toList b.toList

def insertSorted (s : String) : List String → List String
  | [] => [s]
  | t :: ts => if strLe s t then s :: t :: ts else t :: insertSorted s ts

/-- Ascending codepoint sort (the result on a duplicate-free list is what
Python `sorted(set(...))` yields). -/
def sortStrings (l : List String) : List String :=
  l.foldl (fun acc s => insertSorted s acc) []

/-- src/app.py `add_request`: one `BODY` block with its request descriptor;
returns the body with `data` as the `REQUESTDATA` children. -/
def requestBody (report company : String) (data : List Xml) : Xml :=
  .el "BODY" [] ""
    [.el "IMPORTDATA" [] ""
      [.el "REQUESTDESC" [] ""
        [leafX "REPORTNAME" report,
         .el "STATICVARIABLES" [] "" [leafX "SVCURRENTCOMPANY" company]],
       .el "REQUESTDATA" [] "" data]]

/-- The masters `TALLYMESSAGE`: the seven standing ledgers, then one
billwise supplier ledger per distinct non-placeholder cleaned party name
across both row lists, in sorted order (Python `sorted({...})`). -/
def mastersMessage (b2b_rows cdnr_rows : List Rec) : Xml :=
  .el "TALLYMESSAGE" [("xmlns:UDF", "TallyUDF")] ""
    ([ledger_basic "Purchase Taxable" "Purchase Accounts" "No",
      ledger_basic "Purchase Nil Rated" "Purchase Accounts" "No",
      ledger_tax "INPUT IGST" "Integrated Tax",
      ledger_tax "INPUT CGST" "Central Tax",
      ledger_tax "INPUT SGST" "State Tax",
      ledger_tax "INPUT CESS" "Cess",
      ledger_basic "Rounding Off" "Indirect Expenses" "No"]
     ++ ((sortStrings (((b2b_rows ++ cdnr_rows).map fun r =>
            clean_party_name r.partyName).dedup)).filter
          (fun s => s != "" && s != "Unknown Supplier")).map
         fun s => ledger_basic s "Sundry Creditors" "Yes")

/-- src/app.py `build_one_combined_xml` with the clock explicit: envelope
with header, the masters request, then the vouchers request (all Purchase
vouchers in input order, then all note vouchers), serialized. -/
def build_one_combined_xml (today company : String) (b2b_rows cdnr_rows : List Rec)
    (use_inv_as_vch : Bool) : String :=
  prettify (.el "ENVELOPE" [] ""
    [.el "HEADER" [] "" [leafX "TALLYREQUEST" "Import Data"],
     requestBody "All Masters" company [mastersMessage b2b_rows cdnr_rows],
     requestBody "Vouchers" company
       ((b2b_rows.filterMap fun r => (add_purchase_voucher today r use_inv_as_vch).map voucherXml)
        ++ (cdnr_rows.filterMap fun r => (add_cdnr_voucher today r use_inv_as_vch).map voucherXml))])

/-- Placeholder voucher used only to read a known-`some` option. -/
def vnull : Voucher := ⟨"", none, "", "", "", "", "", []⟩

/-- Concrete balanced record (spec scenario 1 shape). -/
def c1rec : Rec :=
  { gstin := "27ABCDE1234F1Z5", partyName := some "Acme - 27ABCDE1234F1Z5",
    invoiceNumber := "INV-01", invoiceType := "Regular", invoiceDate := .str "01-04-24",
    taxableValue := .num false 1000 0, igst := .blank, cgst := .num false 90 0,
    sgst := .num false 90 0, cess := .num false 0 0 }

/-- Concrete note record for spec scenario 2: counterparty note type
"Debit Note", Total = 500.00. -/
def c3rec : Rec :=
  { gstin := "27ABCDE1234F1Z5", partyName := some "Acme",
    invoiceNumber := "CN-1", invoiceType := "Debit Note", invoiceDate := .str "01-04-24",
    taxableValue := .num false 400 0, igst := .blank, cgst := .num false 50 0,
    sgst := .num false 50 0, cess := .blank }

/-- The voucher `add_cdnr_voucher` produces from `c3rec`. -/
def c3voucher : Voucher :=
  { vchType := "Credit Note", entryMode := some "Accounting", date := "20240401",
    number := "CN-1", reference := "CN-1",
    narration := "Credit Note (Supplier Debit) - Supplier: Acme - Ref: CN-1",
    partyLedgerName := "Acme",
    entries := [⟨"Acme", false, 50000, some ("CN-1", "Agst Ref", 50000)⟩,
                ⟨"Purchase Taxable", true, -40000, none⟩,
                ⟨"INPUT CGST", true, -5000, none⟩,
                ⟨"INPUT SGST", true, -5000, none⟩] }

/-- Concrete valid record used to exhibit cross-file duplicate retention. -/
def c4rec : Rec :=
  { gstin := "27AAAAA0000A1Z5", partyName := some "Dup Traders",
    invoiceNumber := "DUP-7", invoiceType := "Regular", invoiceDate := .str "02-04-24",
    taxableValue := .num false 100 0, igst := .num false 18 0, cgst := .blank,
    sgst := .blank, cess := .blank }

/-- Valid record with a blank date cell: its voucher date is the run date. -/
def c6blankDateRec : Rec :=
  { gstin := "27ABCDE1234F1Z5", partyName := some "Acme",
    invoiceNumber := "INV-02", invoiceType := "Regular", invoiceDate := .blank,
    taxableValue := .num false 1000 0, igst := .blank, cgst := .num false 90 0,
    sgst := .num false 90 0, cess := .blank }

/-- Valid record whose date string parses, so no clock fallback occurs. -/
def c6goodRec : Rec :=
  { gstin := "27ABCDE1234F1Z5", partyName := some "Acme",
    invoiceNumber := "INV-03", invoiceType := "Regular", invoiceDate := .str "01-04-24",
    taxableValue := .num false 1000 0, igst := .blank, cgst := .num false 90 0,
    sgst := .num false 90 0, cess := .blank }

/-- Summary row of spec scenario 3: blank type cell, number cell
"12345 Total". -/
def c7rec : Rec :=
  { gstin := "27ABCDE1234F1Z5", partyName := some "Acme",
    invoiceNumber := "12345 Total", invoiceType := "", invoiceDate := .str "01-04-24",
    taxableValue := .num false 1000 0, igst := .blank, cgst := .blank,
    sgst := .blank, cess := .blank }

/-- B2B row whose GSTIN is whitespace-only but otherwise complete. -/
def c9blankGstinRec : Rec :=
  { gstin := " ", partyName := some "Acme",
    invoiceNumber := "INV-04", invoiceType := "Regular", invoiceDate := .str "01-04-24",
    taxableValue := .num false 1000 0, igst := .num false 180 0, cgst := .blank,
    sgst := .blank, cess := .blank }

/-- B2B row with a non-blank GSTIN, retained by the extractor. -/
def c9goodRec : Rec :=
  { gstin := "27ABCDE1234F1Z5", partyName := some "Acme",
    invoiceNumber := "INV-05", invoiceType := "Regular", invoiceDate := .str "01-04-24",
    taxableValue := .num false 1000 0, igst := .num false 180 0, cgst := .blank,
    sgst := .blank, cess := .blank }

theorem roundCents_two (m : Nat) : roundCents m 2 = m := by
  simp [roundCents]

/-- The value `roundCents m e` is the nearest-integer quotient with ties
rounded up: `q` is characterized by `q - 1/2 ≤ 100*m/10^e < q + 1/2`
(ties landing on the left bound), stated integrally. -/
theorem roundCents_bracket (m e : Nat) :
    2 * roundCents m e * 10 ^ e ≤ 2 * (100 * m) + 10 ^ e
    ∧ 2 * (100 * m) < 2 * roundCents m e * 10 ^ e + 10 ^ e := by
  unfold roundCents
  by_cases he : e ≤ 2
  · simp only [if_pos he]
    have hp : 0 < 10 ^ e := pow_pos (by norm_num) e
    have h2 : 10 ^ (2 - e) * 10 ^ e = 100 := by
      rw [← pow_add]
      have h2e : 2 - e + e = 2 := by omega
      rw [h2e]
      norm_num
    have key : 2 * (m * 10 ^ (2 - e)) * 10 ^ e = 2 * (100 * m) := by
      calc 2 * (m * 10 ^ (2 - e)) * 10 ^ e = 2 * (m * (10 ^ (2 - e) * 10 ^ e)) := by ring
        _ = 2 * (100 * m) := by rw [h2]; ring
    omega
  · simp only [if_neg he]
    have hD : 0 < 10 ^ (e - 2) := pow_pos (by norm_num) (e - 2)
    have h10 : 10 ^ e = 100 * 10 ^ (e - 2) := by
      have h2e : 2 + (e - 2) = e := by omega
      calc (10 : ℕ) ^ e = 10 ^ (2 + (e - 2)) := by rw [h2e]
        _ = 10 ^ 2 * 10 ^ (e - 2) := pow_add 10 2 (e - 2)
        _ = 100 * 10 ^ (e - 2) := by norm_num
    set D := 10 ^ (e - 2) with hDdef
    have hdm := Nat.div_add_mod (2 * m + D) (2 * D)
    have hmod : (2 * m + D) % (2 * D) < 2 * D := Nat.mod_lt _ (by omega)
    set q := (2 * m + D) / (2 * D) with hq
    have hcomm : 2 * D * q = q * (2 * D) := by ring
    have g1 : q * (2 * D) ≤ 2 * m + D := by omega
    have g2 : 2 * m < q * (2 * D) + D := by omega
    have e1 : 2 * q * 10 ^ e = q * (2 * D) * 100 := by rw [h10]; ring
    constructor
    · have mono : q * (2 * D) * 100 ≤ (2 * m + D) * 100 := Nat.mul_le_mul_right _ g1
      have e2 : (2 * m + D) * 100 = 2 * (100 * m) + 100 * D := by ring
      omega
    · have mono : 2 * m * 100 < q * (2 * D) * 100 + 100 * D := by omega
      omega

/-- C8: `round_amount` is idempotent — re-rounding its own (two-fraction-
digit, sign-preserved) output returns it unchanged — and the half-way value
1.005 rounds up to 1.01. -/
theorem round_amount_idempotent :
    (∀ x : AmtCell, round_amount (Dec2.toCell (round_amount x)) = round_amount x)
    ∧ round_amount (.num false 1005 3) = ⟨false, 101⟩ := by
  constructor
  · intro x
    cases x <;> simp [round_amount, Dec2.toCell, roundCents_two]
  · decide

/-- C10: on a strictly negative numeric input, `round_amount` returns the
two-fraction-digit quantization with ties away from zero: the sign flag stays
negative (Python `Decimal` keeps the sign, even on `-0.00`), the value is
non-positive, the magnitude is the half-up rounding of `100*m/10^e`
(bracketing characterization), and `round_amount("-1.005") = -1.01`. -/
theorem round_amount_negative_quantizes (m e : Nat) (_h : 0 < m) :
    (round_amount (.num true m e)).neg = true
    ∧ (round_amount (.num true m e)).toInt ≤ 0
    ∧ 2 * (round_amount (.num true m e)).mag * 10 ^ e ≤ 2 * (100 * m) + 10 ^ e
    ∧ 2 * (100 * m) < 2 * (round_amount (.num true m e)).mag * 10 ^ e + 10 ^ e
    ∧ round_amount (.num true 1005 3) = ⟨true, 101⟩ := by
  refine ⟨rfl, ?_, (roundCents_bracket m e).1, (roundCents_bracket m e).2, by decide⟩
  simp [round_amount, Dec2.toInt]

/-- Witness for C10 at the concrete input -1.005. -/
theorem round_amount_negative_quantizes_witness :
    (round_amount (.num true 1005 3)).neg = true
    ∧ round_amount (.num true 1005 3) = ⟨true, 101⟩ := by
  have h := round_amount_negative_quantizes 1005 3 (by decide)
  exact ⟨h.1, h.2.2.2.2⟩

/-- C5 (code bug): `format_date_for_tally` parses "01-04-24" to "20240401"
as the spec says, but a two-digit year in 69..99 lands in the 3900s —
CPython's `%y` maps 99 to 1999 and the code then adds 2000 — so "01-04-99"
yields "39990401", not the "20990401" the spec's 2000s mapping requires. -/
theorem format_date_two_digit_year :
    format_date_for_tally "19000101" (.str "01-04-24") = "20240401"
    ∧ format_date_for_tally "19000101" (.str "01-04-99") = "39990401"
    ∧ format_date_for_tally "19000101" (.str "01-04-99") ≠ "20990401" := by
  refine ⟨by decide, by decide, by decide⟩

/-- C2: each builder emits a voucher exactly when the cleaned party name is
not the placeholder, the stripped document number is non-empty, and the total
of the five rounded monetary fields is strictly positive; otherwise it
returns `none` (no partial voucher). -/
theorem voucher_emission_gate (today : String) (rec : Rec) (o : Bool) :
    ((add_purchase_voucher today rec o).isSome = true
      ↔ (clean_party_name rec.partyName ≠ "Unknown Supplier"
          ∧ pyStrip rec.invoiceNumber ≠ "" ∧ 0 < recTotal rec))
    ∧ ((add_cdnr_voucher today rec o).isSome = true
      ↔ (clean_party_name rec.partyName ≠ "Unknown Supplier"
          ∧ pyStrip rec.invoiceNumber ≠ "" ∧ 0 < recTotal rec)) := by
  constructor
  · simp only [add_purchase_voucher, recTotal]
    split_ifs <;> simp_all
  · simp only [add_cdnr_voucher, recTotal]
    split_ifs <;> simp_all

/-- C3: a note voucher's type is Credit Note exactly when the lowercased
stripped note-type text contains "debit", and Debit Note in every other case;
concretely, the scenario-2 record (type text "Debit Note", Total 500.00)
yields a Credit Note voucher whose party entry is +500.00, offset by negative
Purchase Taxable and tax-head entries. -/
theorem cdnr_direction (today : String) (rec : Rec) (o : Bool) (v : Voucher)
    (hv : add_cdnr_voucher today rec o = some v) :
    (v.vchType = "Credit Note"
      ↔ containsList ['d','e','b','i','t'] (lowerStr (pyStrip rec.invoiceType)).toList = true)
    ∧ (v.vchType = "Credit Note" ∨ v.vchType = "Debit Note")
    ∧ add_cdnr_voucher "20990101" c3rec true = some c3voucher
    ∧ c3voucher.vchType = "Credit Note"
    ∧ c3voucher.entries.map LedgerEntry.amount = [50000, -40000, -5000, -5000] := by
  refine ⟨?_, ?_, by decide, by decide, by decide⟩ <;>
    (simp only [add_cdnr_voucher] at hv
     split_ifs at hv
     all_goals (obtain rfl := Option.some.inj hv; simp_all))

/-- Witness for C3: the direction rule applied at the scenario-2 record. -/
theorem cdnr_direction_witness : c3voucher.vchType = "Credit Note" := by
  have h := cdnr_direction "20990101" c3rec true c3voucher (by decide)
  exact h.1.mpr (by decide)

/-- Sum of the negated kept (strictly positive) amounts of a non-negative
pair list equals the negated full sum: dropped entries are exactly zero. -/
theorem sum_filter_pos_neg (l : List (String × Int)) (h : ∀ p ∈ l, 0 ≤ p.2) :
    ((l.filter fun p => decide (0 < p.2)).map fun p => -p.2).sum
      = -((l.map fun p => p.2).sum) := by
  induction l with
  | nil => simp
  | cons a t ih =>
    have ha := h a (by simp)
    have ht : ∀ p ∈ t, 0 ≤ p.2 := fun p hp => h p (by simp [hp])
    by_cases hp : 0 < a.2
    · simp [List.filter_cons, hp, ih ht]
      omega
    · have hz : a.2 = 0 := by omega
      simp [List.filter_cons, hp, ih ht, hz]

/-- Positive variant of `sum_filter_pos_neg`. -/
theorem sum_filter_pos_id (l : List (String × Int)) (h : ∀ p ∈ l, 0 ≤ p.2) :
    ((l.filter fun p => decide (0 < p.2)).map fun p => p.2).sum
      = (l.map fun p => p.2).sum := by
  induction l with
  | nil => simp
  | cons a t ih =>
    have ha := h a (by simp)
    have ht : ∀ p ∈ t, 0 ≤ p.2 := fun p hp => h p (by simp [hp])
    by_cases hp : 0 < a.2
    · simp [List.filter_cons, hp, ih ht]
    · have hz : a.2 = 0 := by omega
      simp [List.filter_cons, hp, ih ht, hz]

/-- C1: whenever the five rounded monetary fields are non-negative and a
voucher is synthesized — Purchase, or a note voucher in either direction —
the signed AMOUNT values of its ledger entries sum to exactly zero. -/
theorem voucher_entries_balance (today : String) (rec : Rec) (o : Bool)
    (h : 0 ≤ (round_amount rec.taxableValue).toInt ∧ 0 ≤ (round_amount rec.igst).toInt
      ∧ 0 ≤ (round_amount rec.cgst).toInt ∧ 0 ≤ (round_amount rec.sgst).toInt
      ∧ 0 ≤ (round_amount rec.cess).toInt) :
    (∀ v, add_purchase_voucher today rec o = some v → voucherSum v = 0)
    ∧ (∀ v, add_cdnr_voucher today rec o = some v → voucherSum v = 0) := by
  obtain ⟨h1, h2, h3, h4, h5⟩ := h
  have hheads : ∀ p ∈ taxHeads ((round_amount rec.igst).toInt) ((round_amount rec.cgst).toInt)
      ((round_amount rec.sgst).toInt) ((round_amount rec.cess).toInt), 0 ≤ p.2 := by
    intro p hp
    simp only [taxHeads, List.mem_cons, List.not_mem_nil, or_false] at hp
    rcases hp with rfl | rfl | rfl | rfl <;> assumption
  have hneg := sum_filter_pos_neg _ hheads
  have hpos := sum_filter_pos_id _ hheads
  have hbase : ((taxHeads ((round_amount rec.igst).toInt) ((round_amount rec.cgst).toInt)
      ((round_amount rec.sgst).toInt) ((round_amount rec.cess).toInt)).map fun p => p.2).sum
      = (round_amount rec.igst).toInt + (round_amount rec.cgst).toInt
        + (round_amount rec.sgst).toInt + (round_amount rec.cess).toInt := by
    simp [taxHeads]
    omega
  constructor
  · intro v hv
    simp only [add_purchase_voucher] at hv
    split_ifs at hv
    all_goals obtain rfl := Option.some.inj hv
    all_goals
      simp only [voucherSum, List.map_append, List.map_cons, List.map_nil, List.sum_append,
        List.sum_cons, List.sum_nil, List.map_map, Function.comp_def, hneg, hpos, hbase]
    all_goals omega
  · intro v hv
    simp only [add_cdnr_voucher] at hv
    split_ifs at hv
    all_goals obtain rfl := Option.some.inj hv
    all_goals
      simp only [voucherSum, List.map_append, List.map_cons, List.map_nil, List.sum_append,
        List.sum_cons, List.sum_nil, List.map_map, Function.comp_def, hneg, hpos, hbase]
    all_goals omega

/-- Witness for C1: both builders applied to the concrete record `c1rec`. -/
theorem voucher_entries_balance_witness :
    voucherSum ((add_purchase_voucher "20260101" c1rec true).getD vnull) = 0
    ∧ voucherSum ((add_cdnr_voucher "20260101" c1rec true).getD vnull) = 0 := by
  have h := voucher_entries_balance "20260101" c1rec true (by decide)
  constructor
  · cases hv : add_purchase_voucher "20260101" c1rec true with
    | none => exact absurd hv (by decide)
    | some v => simpa [hv] using h.1 v hv
  · cases hv : add_cdnr_voucher "20260101" c1rec true with
    | none => exact absurd hv (by decide)
    | some v => simpa [hv] using h.2 v hv

/-- Every row the dedup loop keeps has a fingerprint outside `seen`. -/
theorem dedupLoop_fp_not_seen (today : String) :
    ∀ (rs : List Rec) (seen : List (List String)) (r : Rec),
      r ∈ dedupLoop today rs seen → fingerprint today r ∉ seen := by
  intro rs
  induction rs with
  | nil =>
    intro seen r hr
    simp [dedupLoop] at hr
  | cons a t ih =>
    intro seen r hr
    simp only [dedupLoop] at hr
    split_ifs at hr with hs hm
    · exact ih seen r hr
    · exact ih seen r hr
    · rcases List.mem_cons.mp hr with rfl | hr'
      · exact hm
      · intro hc
        exact ih _ r hr' (List.mem_cons_of_mem _ hc)

/-- The dedup loop keeps pairwise-distinct fingerprints. -/
theorem dedupLoop_pairwise (today : String) :
    ∀ (rs : List Rec) (seen : List (List String)),
      List.Pairwise (fun a b => fingerprint today a ≠ fingerprint today b)
        (dedupLoop today rs seen) := by
  intro rs
  induction rs with
  | nil =>
    intro seen
    simp [dedupLoop]
  | cons a t ih =>
    intro seen
    simp only [dedupLoop]
    split_ifs with hs hm
    · exact ih seen
    · exact ih seen
    · refine List.Pairwise.cons ?_ (ih _)
      intro b hb heq
      exact dedupLoop_fp_not_seen today t _ b hb (List.mem_cons.mpr (Or.inl heq.symm))

/-- The dedup loop's output is a sublist of its input with summary rows
removed (so input order is preserved). -/
theorem dedupLoop_sublist (today : String) :
    ∀ (rs : List Rec) (seen : List (List String)),
      List.Sublist (dedupLoop today rs seen) (rs.filter fun r => !summaryRow r) := by
  intro rs
  induction rs with
  | nil =>
    intro seen
    simp [dedupLoop]
  | cons a t ih =>
    intro seen
    by_cases hs : summaryRow a = true
    · have e1 : dedupLoop today (a :: t) seen = dedupLoop today t seen := by
        simp [dedupLoop, hs]
      have e2 : (a :: t).filter (fun r => !summaryRow r) = t.filter fun r => !summaryRow r := by
        simp [List.filter_cons, hs]
      rw [e1, e2]
      exact ih seen
    · have e2 : (a :: t).filter (fun r => !summaryRow r)
          = a :: t.filter fun r => !summaryRow r := by
        simp [List.filter_cons, hs]
      by_cases hm : fingerprint today a ∈ seen
      · have e1 : dedupLoop today (a :: t) seen = dedupLoop today t seen := by
          simp [dedupLoop, hs, hm]
        rw [e1, e2]
        exact List.Sublist.cons _ (ih seen)
      · have e1 : dedupLoop today (a :: t) seen
            = a :: dedupLoop today t (fingerprint today a :: seen) := by
          simp [dedupLoop, hs, hm]
        rw [e1, e2]
        exact List.Sublist.cons₂ _ (ih _)

/-- For any fingerprint not yet in `seen`, the first row the dedup loop keeps
with that fingerprint is the first non-summary input row with it. -/
theorem dedupLoop_find (today : String) (φ : List String) :
    ∀ (rs : List Rec) (seen : List (List String)), φ ∉ seen →
      (dedupLoop today rs seen).find? (fun k => decide (fingerprint today k = φ))
        = (rs.filter fun r => !summaryRow r).find?
            (fun k => decide (fingerprint today k = φ)) := by
  intro rs
  induction rs with
  | nil =>
    intro seen hphi
    simp [dedupLoop]
  | cons a t ih =>
    intro seen hphi
    by_cases hs : summaryRow a = true
    · have e1 : dedupLoop today (a :: t) seen = dedupLoop today t seen := by
        simp [dedupLoop, hs]
      have e2 : (a :: t).filter (fun r => !summaryRow r) = t.filter fun r => !summaryRow r := by
        simp [List.filter_cons, hs]
      rw [e1, e2]
      exact ih seen hphi
    · have e2 : (a :: t).filter (fun r => !summaryRow r)
          = a :: t.filter fun r => !summaryRow r := by
        simp [List.filter_cons, hs]
      by_cases hm : fingerprint today a ∈ seen
      · have hne : fingerprint today a ≠ φ := fun hc => hphi (hc ▸ hm)
        have e1 : dedupLoop today (a :: t) seen = dedupLoop today t seen := by
          simp [dedupLoop, hs, hm]
        rw [e1, e2, List.find?_cons]
        have : (decide (fingerprint today a = φ)) = false := by
          simp [hne]
        rw [this]
        exact ih seen hphi
      · have e1 : dedupLoop today (a :: t) seen
            = a :: dedupLoop today t (fingerprint today a :: seen) := by
          simp [dedupLoop, hs, hm]
        rw [e1, e2, List.find?_cons, List.find?_cons]
        by_cases heq : fingerprint today a = φ
        · simp [heq]
        · have hd : (decide (fingerprint today a = φ)) = false := by
            simp [heq]
          rw [hd]
          have hphi2 : φ ∉ fingerprint today a :: seen := by
            intro hc
            rcases List.mem_cons.mp hc with rfl | hc2
            · exact heq rfl
            · exact hphi hc2
          exact ih _ hphi2

/-- C4 counterexample: the same valid row uploaded in two files is retained
twice — the two retained records share a fingerprint, so dedup is not
run-scoped across uploaded sources. -/
theorem dedup_not_run_scoped :
    ¬ List.Pairwise (fun a b => fingerprint "20260101" a ≠ fingerprint "20260101" b)
      (accumulateAll "20260101" [([c4rec], []), ([c4rec], [])]).1 := by
  decide

/-- C4 amended: within one extractor invocation (one file, one category),
retained records have pairwise-distinct fingerprints, the output is a
sublist of the input rows (first-seen order preserved), and for every
fingerprint the retained representative is the first valid non-summary row
bearing it. -/
theorem dedup_within_extractor_call (today : String) (rows : List Rec) :
    (List.Pairwise (fun a b => fingerprint today a ≠ fingerprint today b)
        (extract_b2b today rows)
      ∧ List.Sublist (extract_b2b today rows) rows
      ∧ ∀ r : Rec,
          (extract_b2b today rows).find? (fun k => decide (fingerprint today k = fingerprint today r))
            = ((validB2B rows).filter fun x => !summaryRow x).find?
                (fun k => decide (fingerprint today k = fingerprint today r)))
    ∧ (List.Pairwise (fun a b => fingerprint today a ≠ fingerprint today b)
        (extract_cdnr today rows)
      ∧ List.Sublist (extract_cdnr today rows) rows
      ∧ ∀ r : Rec,
          (extract_cdnr today rows).find? (fun k => decide (fingerprint today k = fingerprint today r))
            = ((validCDNR rows).filter fun x => !summaryRow x).find?
                (fun k => decide (fingerprint today k = fingerprint today r))) := by
  constructor
  · refine ⟨dedupLoop_pairwise today _ _, ?_, fun r => dedupLoop_find today _ _ _ (by simp)⟩
    exact ((dedupLoop_sublist today _ _).trans (List.filter_sublist _)).trans
      ((List.filter_sublist _).trans (List.filter_sublist _))
  · refine ⟨dedupLoop_pairwise today _ _, ?_, fun r => dedupLoop_find today _ _ _ (by simp)⟩
    exact ((dedupLoop_sublist today _ _).trans (List.filter_sublist _)).trans
      ((List.filter_sublist _).trans (List.filter_sublist _))

/-- C7: any row whose stripped type cell is blank or dash-like, or whose
number cell ends in a summary token, is excluded from the extractor output;
concretely, the scenario-3 row (blank type, number "12345 Total") produces
no record. -/
theorem summary_rows_excluded :
    (∀ (today : String) (rows : List Rec) (r : Rec), summaryRow r = true →
        r ∉ extract_b2b today rows)
    ∧ extract_b2b "20260101" [c7rec] = [] := by
  constructor
  · intro today rows r hs hmem
    have hsub := (dedupLoop_sublist today (validB2B rows) []).subset hmem
    have hkeep := (List.mem_filter.mp hsub).2
    simp [hs] at hkeep
  · decide

/-- Witness for C7: the scenario-3 summary row is flagged and excluded. -/
theorem summary_rows_excluded_witness :
    c7rec ∉ extract_b2b "20260101" [c7rec] :=
  summary_rows_excluded.1 "20260101" [c7rec] c7rec (by decide)

/-- C9: every record `extract_b2b` returns has a GSTIN that is non-blank
after stripping; a row whose GSTIN is empty or whitespace-only is excluded
even when all its other fields are present. -/
theorem b2b_requires_gstin :
    (∀ (today : String) (rows : List Rec) (r : Rec), r ∈ extract_b2b today rows →
        pyStrip r.gstin ≠ "")
    ∧ extract_b2b "20260101" [c9blankGstinRec] = [] := by
  constructor
  · intro today rows r hmem
    have hsub := (dedupLoop_sublist today (validB2B rows) []).subset hmem
    have hv := (List.mem_filter.mp hsub).1
    have hn := (List.mem_filter.mp hv).1
    have hg := (List.mem_filter.mp hn).2
    simpa using hg
  · decide

/-- Witness for C9: a retained concrete row indeed has a non-blank GSTIN. -/
theorem b2b_requires_gstin_witness :
    pyStrip c9goodRec.gstin ≠ "" :=
  b2b_requires_gstin.1 "20260101" [c9goodRec] c9goodRec (by decide)

/-- A `filterMap` is determined by the function's values on members. -/
theorem filterMap_ext_mem {α β : Type} (f g : α → Option β) :
    ∀ l : List α, (∀ a ∈ l, f a = g a) → l.filterMap f = l.filterMap g := by
  intro l
  induction l with
  | nil =>
    intro h
    rfl
  | cons a t ih =>
    intro h
    simp only [List.filterMap_cons, h a (List.mem_cons_self a t),
      ih fun x hx => h x (List.mem_cons_of_mem _ hx)]

/-- When no fallback occurs, `format_date_for_tally` does not depend on the
clock. -/
theorem fdt_today_irrelevant (d : DateCell) (h : dateNoFallback d = true) (t₁ t₂ : String) :
    format_date_for_tally t₁ d = format_date_for_tally t₂ d := by
  cases d with
  | blank => simp [dateNoFallback] at h
  | dateObj y m dd => rfl
  | str s =>
    simp only [dateNoFallback] at h
    split_ifs at h with hb
    obtain ⟨r, hr⟩ := Option.isSome_iff_exists.mp h
    have hr2 : parseDateStr (pyStripList s.data) = some r := hr
    simp [format_date_for_tally, hb, hr2]

/-- The purchase builder depends on the clock only through the date field. -/
theorem add_purchase_today_irrelevant (rec : Rec) (o : Bool) (t₁ t₂ : String)
    (h : dateNoFallback rec.invoiceDate = true) :
    add_purchase_voucher t₁ rec o = add_purchase_voucher t₂ rec o := by
  simp only [add_purchase_voucher, fdt_today_irrelevant rec.invoiceDate h t₁ t₂]

/-- The note builder depends on the clock only through the date field. -/
theorem add_cdnr_today_irrelevant (rec : Rec) (o : Bool) (t₁ t₂ : String)
    (h : dateNoFallback rec.invoiceDate = true) :
    add_cdnr_voucher t₁ rec o = add_cdnr_voucher t₂ rec o := by
  simp only [add_cdnr_voucher, fdt_today_irrelevant rec.invoiceDate h t₁ t₂]

set_option maxRecDepth 40000 in
/-- C6 counterexample: with a valid row whose date cell is blank, the
serialized document embeds the run date, so two runs of
`build_one_combined_xml` on identical inputs at different times differ. -/
theorem build_output_time_dependent :
    build_one_combined_xml "20240101" "Co" [c6blankDateRec] [] true
      ≠ build_one_combined_xml "20250101" "Co" [c6blankDateRec] [] true := by
  intro h
  have h2 := congrArg
    (fun s : String => ((((s.data.drop 990).drop 990).drop 990).drop 979).take 8) h
  exact absurd h2 (by decide)

/-- C6 amended: when no date field falls back to the clock (every date is
present and parseable), the serialized document is byte-for-byte a function
of the input rows, company, and voucher-numbering option alone. -/
theorem build_deterministic_when_dates_parse (company : String) (b2b cdnr : List Rec)
    (o : Bool) (t₁ t₂ : String)
    (hb : ∀ r ∈ b2b, dateNoFallback r.invoiceDate = true)
    (hc : ∀ r ∈ cdnr, dateNoFallback r.invoiceDate = true) :
    build_one_combined_xml t₁ company b2b cdnr o
      = build_one_combined_xml t₂ company b2b cdnr o := by
  unfold build_one_combined_xml
  have e1 : (b2b.filterMap fun r => (add_purchase_voucher t₁ r o).map voucherXml)
      = b2b.filterMap fun r => (add_purchase_voucher t₂ r o).map voucherXml :=
    filterMap_ext_mem _ _ b2b fun r hr => by
      rw [add_purchase_today_irrelevant r o t₁ t₂ (hb r hr)]
  have e2 : (cdnr.filterMap fun r => (add_cdnr_voucher t₁ r o).map voucherXml)
      = cdnr.filterMap fun r => (add_cdnr_voucher t₂ r o).map voucherXml :=
    filterMap_ext_mem _ _ cdnr fun r hr => by
      rw [add_cdnr_today_irrelevant r o t₁ t₂ (hc r hr)]
  rw [e1, e2]

/-- Witness for C6 (amended): a parseable-date row yields identical output
for two different run dates. -/
theorem build_deterministic_witness :
    build_one_combined_xml "20240101" "Co" [c6goodRec] [] true
      = build_one_combined_xml "20250101" "Co" [c6goodRec] [] true :=
  build_deterministic_when_dates_parse "Co" [c6goodRec] [] true "20240101" "20250101"
    (by decide) (by simp)
